import Mathlib

/-!
Shallow embedding of the similarity-scoring logic of the
audio-fingerprinting repository (files audio_similarity_detector.py and
enhanced_similarity_detector.py), together with proofs that settle the
spec claims about it.

Real-valued audio measurements are modelled as exact rationals; the only
real-number arithmetic is the Pearson correlation coefficient returned by
np.corrcoef, whose square root forces the value into the reals.
-/

namespace AudioFP

/-- Embedding of interpret_similarity (audio_similarity_detector.py,
lines 113-129): the if/elif chain classifying a similarity score into a
human-readable label.  Scores are exact rationals. -/
def interpret_similarity (similarity_score : ℚ) : String :=
  if similarity_score ≥ 0.95 then "IDENTICAL - Same audio file"
  else if similarity_score ≥ 0.8 then "VERY SIMILAR - Likely same content with minor differences"
  else if similarity_score ≥ 0.6 then "SIMILAR - Related audio content"
  else if similarity_score ≥ 0.4 then "SOMEWHAT SIMILAR - Some common characteristics"
  else if similarity_score ≥ 0.2 then "SLIGHTLY SIMILAR - Minimal common features"
  else "DIFFERENT - Unrelated audio content"

/-- Embedding of the inline classification of the overall similarity in
main_enhanced_analysis (enhanced_similarity_detector.py, lines 298-308).
Note this table has no 0.95 ("IDENTICAL") tier. -/
def main_enhanced_interpretation (overall : ℚ) : String :=
  if overall ≥ 0.8 then "VERY SIMILAR"
  else if overall ≥ 0.6 then "SIMILAR"
  else if overall ≥ 0.4 then "SOMEWHAT SIMILAR"
  else if overall ≥ 0.2 then "SLIGHTLY SIMILAR"
  else "DIFFERENT"

/-- Rank of an interpretation label in the similarity-tier order used by
interpret_similarity (higher = more similar).  Used only to state
monotonicity of the classifier. -/
def labelRank (label : String) : ℕ :=
  if label = "IDENTICAL - Same audio file" then 5
  else if label = "VERY SIMILAR - Likely same content with minor differences" then 4
  else if label = "SIMILAR - Related audio content" then 3
  else if label = "SOMEWHAT SIMILAR - Some common characteristics" then 2
  else if label = "SLIGHTLY SIMILAR - Minimal common features" then 1
  else 0

/-- Python exceptions that the scoring code in
enhanced_similarity_detection can raise: ZeroDivisionError from the
normalized-difference formulas at max(a,b) == 0, and the generic
ValueError numpy raises from np.corrcoef on arrays of unequal length. -/
inductive PyErr where
  | zeroDivisionError
  | valueError
deriving DecidableEq, Repr

/-- A floating-point similarity value: either an ordinary number or NaN
(as silently produced by np.corrcoef on a zero-variance vector). -/
inductive SimValue where
  | val (x : ℝ)
  | nan

/-- The per-clip feature dictionary returned by
analyze_audio_characteristics (enhanced_similarity_detector.py, lines
44-57), fields in the dictionary's insertion order. -/
structure Characteristics where
  duration : ℚ
  sample_rate : ℚ
  rms_energy : ℚ
  zero_crossing_rate_mean : ℚ
  spectral_centroid_mean : ℚ
  spectral_rolloff_mean : ℚ
  spectral_bandwidth_mean : ℚ
  mfcc_mean : List ℚ
  chroma_mean : List ℚ
  tempo : ℚ
  harmonic_ratio : ℚ
  percussive_ratio : ℚ

/-- The similarities dictionary built by enhanced_similarity_detection
(lines 73-109), fields in insertion order. -/
structure Similarities where
  duration : ℚ
  energy : ℚ
  spectral_centroid : ℚ
  spectral_rolloff : ℚ
  mfcc : SimValue
  chroma : SimValue
  tempo : ℚ
  harmonic_ratio : ℚ
  percussive_ratio : ℚ

/-- The dictionary returned by enhanced_similarity_detection
(lines 114-119). -/
structure EnhancedResult where
  characteristics1 : Characteristics
  characteristics2 : Characteristics
  similarities : Similarities
  overall_similarity : SimValue

/-- The normalized-difference similarity `max(0, 1 - |a - b| / max(a, b))`
used for duration, energy, spectral centroid, spectral rolloff and tempo
(lines 76-102).  Python raises ZeroDivisionError when max(a, b) == 0. -/
def scalarSimilarity (a b : ℚ) : Except PyErr ℚ :=
  if max a b = 0 then .error .zeroDivisionError
  else .ok (max 0 (1 - |a - b| / max a b))

/-- The unnormalized difference similarity `max(0, 1 - |a - b|)` used for
harmonic_ratio and percussive_ratio (lines 104-109). -/
def ratioSim (a b : ℚ) : ℚ :=
  max 0 (1 - |a - b|)

/-- n * Σ x² - (Σ x)², the n²-scaled variance of a list; zero exactly
when the list is constant (or has fewer than two elements). -/
def varNum (x : List ℚ) : ℚ :=
  (x.length : ℚ) * (x.map (fun v => v ^ 2)).sum - x.sum ^ 2

/-- n * Σ xy - Σ x * Σ y, the n²-scaled covariance of two lists of the
same length n. -/
def covNum (x y : List ℚ) : ℚ :=
  (x.length : ℚ) * (List.zipWith (fun a b => a * b) x y).sum - x.sum * y.sum

/-- Embedding of `float(np.corrcoef(x, y)[0, 1])` on 1-D arrays, used for
the mfcc and chroma similarities (lines 91-98): raises ValueError when the
arrays cannot be stacked (unequal lengths), silently yields NaN when
either input has zero variance (division by zero inside corrcoef, a
RuntimeWarning but not an exception), and otherwise yields the exact
Pearson correlation covNum / (sqrt (varNum x) * sqrt (varNum y)).
numpy's final clip of the coefficient into [-1, 1] is the identity in
exact arithmetic and is not represented. -/
noncomputable def corrcoef (x y : List ℚ) : Except PyErr SimValue :=
  if x.length ≠ y.length then .error .valueError
  else if varNum x = 0 ∨ varNum y = 0 then .ok .nan
  else .ok (.val ((covNum x y : ℝ) /
    (Real.sqrt ((varNum x : ℚ) : ℝ) * Real.sqrt ((varNum y : ℚ) : ℝ))))

/-- NaN-propagating addition of similarity values, as in IEEE floats. -/
noncomputable def SimValue.add : SimValue → SimValue → SimValue
  | .val a, .val b => .val (a + b)
  | _, _ => .nan

/-- `list(similarities.values())` in dictionary insertion order
(duration, energy, spectral_centroid, spectral_rolloff, mfcc, chroma,
tempo, harmonic_ratio, percussive_ratio). -/
noncomputable def simValues : Similarities → List SimValue
  | ⟨d, e, sc, sr, m, c, t, h, p⟩ =>
    [.val (d : ℝ), .val (e : ℝ), .val (sc : ℝ), .val (sr : ℝ), m, c,
     .val (t : ℝ), .val (h : ℝ), .val (p : ℝ)]

/-- `np.mean` of a list of similarity values: the sum divided by the
length, with NaN propagating through the sum. -/
noncomputable def npMean (l : List SimValue) : SimValue :=
  match l.foldl SimValue.add (.val 0) with
  | .val s => .val (s / (l.length : ℝ))
  | .nan => .nan

/-- Embedding of the scoring part of enhanced_similarity_detection
(enhanced_similarity_detector.py, lines 73-119), taking the two feature
dictionaries as inputs (the audio decoding and feature extraction of
lines 69-70 are external collaborators).  The per-feature similarities
are computed in source order, so the first Python exception raised
aborts the comparison with that error. -/
noncomputable def enhanced_similarity_detection (c1 c2 : Characteristics) :
    Except PyErr EnhancedResult :=
  match scalarSimilarity c1.duration c2.duration with
  | .error e => .error e
  | .ok simDur =>
  match scalarSimilarity c1.rms_energy c2.rms_energy with
  | .error e => .error e
  | .ok simEnergy =>
  match scalarSimilarity c1.spectral_centroid_mean c2.spectral_centroid_mean with
  | .error e => .error e
  | .ok simCentroid =>
  match scalarSimilarity c1.spectral_rolloff_mean c2.spectral_rolloff_mean with
  | .error e => .error e
  | .ok simRolloff =>
  match corrcoef c1.mfcc_mean c2.mfcc_mean with
  | .error e => .error e
  | .ok simMfcc =>
  match corrcoef c1.chroma_mean c2.chroma_mean with
  | .error e => .error e
  | .ok simChroma =>
  match scalarSimilarity c1.tempo c2.tempo with
  | .error e => .error e
  | .ok simTempo =>
    .ok ⟨c1, c2,
      ⟨simDur, simEnergy, simCentroid, simRolloff, simMfcc, simChroma, simTempo,
        ratioSim ( Characteristics.harmonic_ratio c1) ( Characteristics.harmonic_ratio c2),
        ratioSim ( Characteristics.percussive_ratio c1) ( Characteristics.percussive_ratio c2)⟩,
      npMean (simValues
      ⟨simDur, simEnergy, simCentroid, simRolloff, simMfcc, simChroma, simTempo,
        ratioSim ( Characteristics.harmonic_ratio c1) ( Characteristics.harmonic_ratio c2),
        ratioSim ( Characteristics.percussive_ratio c1) ( Characteristics.percussive_ratio c2)⟩)⟩

/-- Whether a scoring run returned a report (rather than raising). -/
def isOkB : Except PyErr EnhancedResult → Bool
  | .ok _ => true
  | .error _ => false

/-- Modelled from the spec: the aggregate as the spec describes it, the
unweighted arithmetic mean of the nine per-feature similarity values
(NaN-propagating).  Stated separately from npMean/simValues so the
code's aggregate can be compared against the spec's words. -/
noncomputable def aggregateSpec : Similarities → SimValue
  | ⟨d, e, sc, sr, .val m, .val c, t, h, p⟩ =>
    .val ((((d + e + sc + sr + t + h + p : ℚ) : ℝ) + m + c) / 9)
  | _ => .nan

/-- The normalized-difference similarity is symmetric in its inputs. -/
lemma scalarSim_comm (a b : ℚ) : scalarSimilarity a b = scalarSimilarity b a := by
  unfold scalarSimilarity
  rw [max_comm a b, abs_sub_comm a b]

/-- The unnormalized difference similarity is symmetric. -/
lemma ratioSim_comm (a b : ℚ) : ratioSim a b = ratioSim b a := by
  unfold ratioSim
  rw [abs_sub_comm a b]

/-- On a positive measurement compared with itself the normalized
difference similarity is exactly 1. -/
lemma scalarSim_self {a : ℚ} (h : 0 < a) : scalarSimilarity a a = .ok 1 := by
  unfold scalarSimilarity
  rw [max_self, if_neg h.ne', sub_self, abs_zero, zero_div, sub_zero,
    max_eq_right zero_le_one]

/-- When both measurements are zero the code divides by zero. -/
lemma scalarSim_zero {a b : ℚ} (h : max a b = 0) :
    scalarSimilarity a b = .error .zeroDivisionError := by
  unfold scalarSimilarity
  rw [if_pos h]

/-- The value produced by a successful normalized-difference similarity. -/
lemma scalarSim_ok_eq {a b v : ℚ} (h : scalarSimilarity a b = .ok v) :
    v = max 0 (1 - |a - b| / max a b) := by
  unfold scalarSimilarity at h
  split_ifs at h with hm
  exact (Except.ok.inj h).symm

/-- A successful normalized-difference similarity of nonnegative
measurements lies in the unit interval. -/
lemma scalarSim_mem {a b v : ℚ} (ha : 0 ≤ a) (hb : 0 ≤ b)
    (h : scalarSimilarity a b = .ok v) : 0 ≤ v ∧ v ≤ 1 := by
  unfold scalarSimilarity at h
  split_ifs at h with hm
  have hmax : 0 < max a b := lt_of_le_of_ne (le_max_of_le_left ha) (Ne.symm hm)
  obtain rfl := Except.ok.inj h
  constructor
  · exact le_max_left 0 _
  · have hq : 0 ≤ |a - b| / max a b := div_nonneg (abs_nonneg _) hmax.le
    have h1 : 1 - |a - b| / max a b ≤ 1 := by linarith
    exact max_le (by norm_num) h1

/-- The unnormalized difference similarity always lies in [0, 1]. -/
lemma ratioSim_mem (a b : ℚ) : 0 ≤ ratioSim a b ∧ ratioSim a b ≤ 1 := by
  unfold ratioSim
  refine ⟨le_max_left 0 _, max_le (by norm_num) ?_⟩
  have : 0 ≤ |a - b| := abs_nonneg _
  linarith

/-- The unnormalized difference similarity of equal inputs is 1. -/
lemma ratioSim_self (a : ℚ) : ratioSim a a = 1 := by
  unfold ratioSim
  rw [sub_self, abs_zero, sub_zero, max_eq_right zero_le_one]

/-- Pairing a list with itself multiplies each entry by itself. -/
lemma zipWith_mul_self (l : List ℚ) :
    List.zipWith (fun a b => a * b) l l = l.map (fun v => v ^ 2) := by
  induction l with
  | nil => rfl
  | cons a l ih => simp [ih, sq]

/-- The scaled covariance of a list with itself is its scaled variance. -/
lemma covNum_self (l : List ℚ) : covNum l l = varNum l := by
  unfold covNum varNum
  rw [zipWith_mul_self, sq]

/-- The scaled covariance is symmetric for lists of equal length. -/
lemma covNum_comm {x y : List ℚ} (h : x.length = y.length) :
    covNum x y = covNum y x := by
  unfold covNum
  rw [h, List.zipWith_comm_of_comm (fun a b => a * b) mul_comm, mul_comm x.sum y.sum]

/-- The embedded np.corrcoef is symmetric in its two arrays. -/
lemma corrcoef_comm (x y : List ℚ) : corrcoef x y = corrcoef y x := by
  unfold corrcoef
  rcases eq_or_ne x.length y.length with h | h
  · have h1 : ¬x.length ≠ y.length := by simp [h]
    have h2 : ¬y.length ≠ x.length := by simp [h]
    rw [if_neg h1, if_neg h2, covNum_comm h,
      mul_comm (Real.sqrt ((varNum x : ℚ) : ℝ))]
    exact if_congr or_comm rfl rfl
  · rw [if_pos h, if_pos (Ne.symm h)]

/-- np.corrcoef of a non-constant vector with itself is exactly 1. -/
lemma corrcoef_self {v : List ℚ} (h : 0 < varNum v) :
    corrcoef v v = .ok (.val 1) := by
  unfold corrcoef
  rw [if_neg (by simp), if_neg (by simp [h.ne'])]
  have hc : (0 : ℝ) ≤ ((varNum v : ℚ) : ℝ) := by exact_mod_cast h.le
  rw [covNum_self, Real.mul_self_sqrt hc]
  rw [div_self (by exact_mod_cast h.ne')]

/-- np.corrcoef on equal-length arrays where either side has zero
variance silently yields NaN. -/
lemma corrcoef_varzero {x y : List ℚ} (hl : x.length = y.length)
    (h : varNum x = 0 ∨ varNum y = 0) : corrcoef x y = .ok .nan := by
  unfold corrcoef
  rw [if_neg (by simp [hl]), if_pos h]

/-- np.corrcoef on arrays of unequal length raises ValueError. -/
lemma corrcoef_mismatch {x y : List ℚ} (h : x.length ≠ y.length) :
    corrcoef x y = .error .valueError := by
  unfold corrcoef
  rw [if_pos h]

/-- A successful np.corrcoef with a zero-variance input is NaN. -/
lemma corrcoef_ok_varzero {x y : List ℚ} {v : SimValue}
    (h : corrcoef x y = .ok v) (hz : varNum x = 0 ∨ varNum y = 0) :
    v = .nan := by
  unfold corrcoef at h
  split_ifs at h with h1
  exact (Except.ok.inj h).symm

/-- The code's aggregate (np.mean over the similarity dictionary's
values) agrees with the spec's unweighted arithmetic mean of the nine
per-feature similarity values. -/
lemma npMean_simValues (s : Similarities) :
    npMean (simValues s) = aggregateSpec s := by
  obtain ⟨d, e, sc, sr, m, c, t, h, p⟩ := s
  cases m <;> cases c <;>
    simp [npMean, simValues, aggregateSpec, SimValue.add] <;>
    push_cast <;> ring_nf

/-- Inversion of a successful scoring run: each per-feature similarity
came from the corresponding source formula, and the report is assembled
from exactly those values. -/
lemma enhanced_ok_inv {A B : Characteristics} {rep : EnhancedResult}
    (h : enhanced_similarity_detection A B = .ok rep) :
    ∃ sd se sc sr mv cv st,
      scalarSimilarity A.duration B.duration = .ok sd ∧
      scalarSimilarity A.rms_energy B.rms_energy = .ok se ∧
      scalarSimilarity A.spectral_centroid_mean B.spectral_centroid_mean = .ok sc ∧
      scalarSimilarity A.spectral_rolloff_mean B.spectral_rolloff_mean = .ok sr ∧
      corrcoef A.mfcc_mean B.mfcc_mean = .ok mv ∧
      corrcoef A.chroma_mean B.chroma_mean = .ok cv ∧
      scalarSimilarity A.tempo B.tempo = .ok st ∧
      rep = ⟨A, B,
        ⟨sd, se, sc, sr, mv, cv, st,
          ratioSim ( Characteristics.harmonic_ratio A) ( Characteristics.harmonic_ratio B),
          ratioSim ( Characteristics.percussive_ratio A) ( Characteristics.percussive_ratio B)⟩,
        npMean (simValues
        ⟨sd, se, sc, sr, mv, cv, st,
          ratioSim ( Characteristics.harmonic_ratio A) ( Characteristics.harmonic_ratio B),
          ratioSim ( Characteristics.percussive_ratio A) ( Characteristics.percussive_ratio B)⟩)⟩ := by
  unfold enhanced_similarity_detection at h
  cases e1 : scalarSimilarity A.duration B.duration with
  | error e => rw [e1] at h; cases h
  | ok sd =>
  rw [e1] at h
  cases e2 : scalarSimilarity A.rms_energy B.rms_energy with
  | error e => rw [e2] at h; cases h
  | ok se =>
  rw [e2] at h
  cases e3 : scalarSimilarity A.spectral_centroid_mean B.spectral_centroid_mean with
  | error e => rw [e3] at h; cases h
  | ok sc =>
  rw [e3] at h
  cases e4 : scalarSimilarity A.spectral_rolloff_mean B.spectral_rolloff_mean with
  | error e => rw [e4] at h; cases h
  | ok sr =>
  rw [e4] at h
  cases e5 : corrcoef A.mfcc_mean B.mfcc_mean with
  | error e => rw [e5] at h; cases h
  | ok mv =>
  rw [e5] at h
  cases e6 : corrcoef A.chroma_mean B.chroma_mean with
  | error e => rw [e6] at h; cases h
  | ok cv =>
  rw [e6] at h
  cases e7 : scalarSimilarity A.tempo B.tempo with
  | error e => rw [e7] at h; cases h
  | ok st =>
  rw [e7] at h
  exact ⟨sd, se, sc, sr, mv, cv, st, rfl, rfl, rfl, rfl, rfl, rfl, rfl,
    (Except.ok.inj h).symm⟩

/-- Scoring a summary against itself, when every scalar feature the code
normalizes by is positive and both correlation vectors are non-constant,
produces a report whose nine per-feature similarities are all exactly 1
and whose aggregate is exactly 1. -/
lemma score_self {A : Characteristics}
    (hd : 0 < A.duration) (he : 0 < A.rms_energy)
    (hc : 0 < A.spectral_centroid_mean) (hr : 0 < A.spectral_rolloff_mean)
    (ht : 0 < A.tempo)
    (hm : 0 < varNum A.mfcc_mean) (hch : 0 < varNum A.chroma_mean) :
    enhanced_similarity_detection A A =
      .ok ⟨A, A, ⟨1, 1, 1, 1, .val 1, .val 1, 1, 1, 1⟩, .val 1⟩ := by
  unfold enhanced_similarity_detection
  simp only [scalarSim_self hd, scalarSim_self he, scalarSim_self hc,
    scalarSim_self hr, scalarSim_self ht, corrcoef_self hm, corrcoef_self hch,
    ratioSim_self, npMean_simValues]
  norm_num [aggregateSpec]

/-- A well-behaved concrete feature summary: positive scalar features
and non-constant coefficient vectors. -/
def exA : Characteristics :=
  ⟨10, 44100, 1/2, 1/10, 1000, 2000, 500, [0, 1], [1, 0], 120, 3/5, 2/5⟩

/-- A summary that is valid per the spec (positive duration, tempo and
sample rate) but has zero RMS energy. -/
def exZ : Characteristics := { exA with rms_energy := 0 }

/-- A valid summary whose chroma vector is constant. -/
def exC : Characteristics := { exA with chroma_mean := [1/2, 1/2, 1/2] }

/-- Two summaries identical except for anti-correlated mfcc vectors. -/
def exP : Characteristics := exA

/-- See exP: same summary with the mfcc coefficients reversed. -/
def exQ : Characteristics := { exA with mfcc_mean := [1, 0] }

/-- A malformed summary (negative tempo), otherwise equal to exA. -/
def exN1 : Characteristics := { exA with tempo := -120 }

/-- A second malformed summary with a different negative tempo. -/
def exN2 : Characteristics := { exA with tempo := -100 }

/-- A summary with a 3-element mfcc vector (mismatching exA's length). -/
def exM : Characteristics := { exA with mfcc_mean := [0, 1, 2] }

/-- The report produced by scoring exA against itself. -/
def repAA : EnhancedResult :=
  ⟨exA, exA, ⟨1, 1, 1, 1, .val 1, .val 1, 1, 1, 1⟩, .val 1⟩

/-- The report produced by scoring exC (constant chroma) against itself:
a NaN chroma similarity and a NaN aggregate, not an error. -/
def repC : EnhancedResult :=
  ⟨exC, exC, ⟨1, 1, 1, 1, .val 1, .nan, 1, 1, 1⟩, .nan⟩

/-- The report produced by scoring exP against exQ: the mfcc similarity
is the correlation -1, outside [0, 1]. -/
noncomputable def repPQ : EnhancedResult :=
  ⟨exP, exQ, ⟨1, 1, 1, 1, .val (-1), .val 1, 1, 1, 1⟩, .val (7/9)⟩

/-- The report produced by scoring the two negative-tempo summaries:
the tempo similarity is 6/5, above 1, and no error is raised. -/
noncomputable def repN : EnhancedResult :=
  ⟨exN1, exN2, ⟨1, 1, 1, 1, .val 1, .val 1, 6/5, 1, 1⟩, .val (46/45)⟩

/-- Evaluation: scoring exA against itself. -/
lemma enhanced_exA_exA :
    enhanced_similarity_detection exA exA = .ok repAA :=
  score_self (by norm_num [exA]) (by norm_num [exA]) (by norm_num [exA])
    (by norm_num [exA]) (by norm_num [exA])
    (by norm_num [exA, varNum]) (by norm_num [exA, varNum])

/-- Evaluation: scoring the zero-energy summary against itself raises
ZeroDivisionError at the energy feature. -/
lemma enhanced_exZ_exZ :
    enhanced_similarity_detection exZ exZ = .error .zeroDivisionError := by
  unfold enhanced_similarity_detection
  have h1 : scalarSimilarity exZ.duration exZ.duration = .ok 1 :=
    scalarSim_self (by norm_num [exZ, exA])
  have h2 : scalarSimilarity exZ.rms_energy exZ.rms_energy =
      .error .zeroDivisionError :=
    scalarSim_zero (by norm_num [exZ, exA])
  simp only [h1, h2]

/-- Evaluation: scoring the constant-chroma summary against itself
returns a report with NaN chroma and NaN aggregate. -/
lemma enhanced_exC_exC :
    enhanced_similarity_detection exC exC = .ok repC := by
  unfold enhanced_similarity_detection
  have h1 : scalarSimilarity exC.duration exC.duration = .ok 1 :=
    scalarSim_self (by norm_num [exC, exA])
  have h2 : scalarSimilarity exC.rms_energy exC.rms_energy = .ok 1 :=
    scalarSim_self (by norm_num [exC, exA])
  have h3 : scalarSimilarity exC.spectral_centroid_mean exC.spectral_centroid_mean = .ok 1 :=
    scalarSim_self (by norm_num [exC, exA])
  have h4 : scalarSimilarity exC.spectral_rolloff_mean exC.spectral_rolloff_mean = .ok 1 :=
    scalarSim_self (by norm_num [exC, exA])
  have h5 : corrcoef exC.mfcc_mean exC.mfcc_mean = .ok (.val 1) :=
    corrcoef_self (by norm_num [exC, exA, varNum])
  have h6 : corrcoef exC.chroma_mean exC.chroma_mean = .ok .nan :=
    corrcoef_varzero rfl (Or.inl (by norm_num [exC, exA, varNum]))
  have h7 : scalarSimilarity exC.tempo exC.tempo = .ok 1 :=
    scalarSim_self (by norm_num [exC, exA])
  simp only [h1, h2, h3, h4, h5, h6, h7, ratioSim_self, npMean_simValues]
  simp [repC, aggregateSpec]

/-- np.corrcoef of the reversed pair [0,1], [1,0] is exactly -1. -/
lemma corrcoef_reversed_pair :
    corrcoef [0, 1] [1, 0] = .ok (.val (-1)) := by
  unfold corrcoef
  rw [if_neg (by norm_num), if_neg (by norm_num [varNum])]
  have hv : varNum [(0 : ℚ), 1] = 1 := by norm_num [varNum]
  have hw : varNum [(1 : ℚ), 0] = 1 := by norm_num [varNum]
  have hc : covNum [(0 : ℚ), 1] [1, 0] = -1 := by norm_num [covNum]
  rw [hv, hw, hc]
  norm_num [Real.sqrt_one]

/-- Evaluation: scoring exP against exQ returns a report whose mfcc
similarity is the negative correlation -1. -/
lemma enhanced_exP_exQ :
    enhanced_similarity_detection exP exQ = .ok repPQ := by
  unfold enhanced_similarity_detection
  have h1 : scalarSimilarity exP.duration exQ.duration = .ok 1 :=
    scalarSim_self (by norm_num [exP, exQ, exA])
  have h2 : scalarSimilarity exP.rms_energy exQ.rms_energy = .ok 1 :=
    scalarSim_self (by norm_num [exP, exQ, exA])
  have h3 : scalarSimilarity exP.spectral_centroid_mean exQ.spectral_centroid_mean = .ok 1 :=
    scalarSim_self (by norm_num [exP, exQ, exA])
  have h4 : scalarSimilarity exP.spectral_rolloff_mean exQ.spectral_rolloff_mean = .ok 1 :=
    scalarSim_self (by norm_num [exP, exQ, exA])
  have h5 : corrcoef exP.mfcc_mean exQ.mfcc_mean = .ok (.val (-1)) := by
    have : exP.mfcc_mean = [0, 1] := rfl
    have : exQ.mfcc_mean = [1, 0] := rfl
    exact corrcoef_reversed_pair
  have h6 : corrcoef exP.chroma_mean exQ.chroma_mean = .ok (.val 1) :=
    corrcoef_self (by norm_num [exP, exA, varNum])
  have h7 : scalarSimilarity exP.tempo exQ.tempo = .ok 1 :=
    scalarSim_self (by norm_num [exP, exQ, exA])
  have h8 : ratioSim ( Characteristics.harmonic_ratio exP) ( Characteristics.harmonic_ratio exQ) = 1 :=
    ratioSim_self (3/5)
  have h9 : ratioSim ( Characteristics.percussive_ratio exP) ( Characteristics.percussive_ratio exQ) = 1 :=
    ratioSim_self (2/5)
  simp only [h1, h2, h3, h4, h5, h6, h7, h8, h9, npMean_simValues]
  simp only [repPQ, aggregateSpec]
  norm_num

/-- The normalized-difference similarity of the two negative tempos
-120 and -100 is 6/5, strictly above 1. -/
lemma scalarSim_negative_tempos :
    scalarSimilarity (-120 : ℚ) (-100) = .ok (6/5) := by
  unfold scalarSimilarity
  rw [max_eq_right (by norm_num : (-120 : ℚ) ≤ -100)]
  rw [if_neg (by norm_num)]
  norm_num

/-- Evaluation: scoring the two malformed (negative-tempo) summaries
succeeds and returns a report, with tempo similarity 6/5. -/
lemma enhanced_exN1_exN2 :
    enhanced_similarity_detection exN1 exN2 = .ok repN := by
  unfold enhanced_similarity_detection
  have h1 : scalarSimilarity exN1.duration exN2.duration = .ok 1 :=
    scalarSim_self (by norm_num [exN1, exN2, exA])
  have h2 : scalarSimilarity exN1.rms_energy exN2.rms_energy = .ok 1 :=
    scalarSim_self (by norm_num [exN1, exN2, exA])
  have h3 : scalarSimilarity exN1.spectral_centroid_mean exN2.spectral_centroid_mean = .ok 1 :=
    scalarSim_self (by norm_num [exN1, exN2, exA])
  have h4 : scalarSimilarity exN1.spectral_rolloff_mean exN2.spectral_rolloff_mean = .ok 1 :=
    scalarSim_self (by norm_num [exN1, exN2, exA])
  have h5 : corrcoef exN1.mfcc_mean exN2.mfcc_mean = .ok (.val 1) :=
    corrcoef_self (by norm_num [exN1, exN2, exA, varNum])
  have h6 : corrcoef exN1.chroma_mean exN2.chroma_mean = .ok (.val 1) :=
    corrcoef_self (by norm_num [exN1, exN2, exA, varNum])
  have h7 : scalarSimilarity exN1.tempo exN2.tempo = .ok (6/5) :=
    scalarSim_negative_tempos
  have h8 : ratioSim ( Characteristics.harmonic_ratio exN1) ( Characteristics.harmonic_ratio exN2) = 1 :=
    ratioSim_self (3/5)
  have h9 : ratioSim ( Characteristics.percussive_ratio exN1) ( Characteristics.percussive_ratio exN2) = 1 :=
    ratioSim_self (2/5)
  simp only [h1, h2, h3, h4, h5, h6, h7, h8, h9, npMean_simValues]
  simp only [repN, aggregateSpec]
  norm_num

/-- Claim C1, counterexample: at a zero-valued measurement pair the code
raises ZeroDivisionError instead of defining the similarity to be 1 —
both for the shared scalar formula at a = b = 0 and for a whole scoring
run on a valid summary whose RMS energy is zero. -/
theorem claim1_counterexample :
    scalarSimilarity 0 0 = Except.error PyErr.zeroDivisionError ∧
    enhanced_similarity_detection exZ exZ = Except.error PyErr.zeroDivisionError :=
  ⟨scalarSim_zero (by simp), enhanced_exZ_exZ⟩

/-- Claim C1, amended: each scalar closeness feature (duration, energy,
spectral centroid, spectral rolloff, tempo) of a successful report equals
max(0, 1 - |a - b| / max(a, b)); but when max(a, b) = 0 the scalar
formula raises ZeroDivisionError rather than yielding 1. -/
theorem claim1_amended :
    (∀ A B : Characteristics, ∀ rep : EnhancedResult,
      enhanced_similarity_detection A B = .ok rep →
      rep.similarities.duration =
        max 0 (1 - |A.duration - B.duration| / max A.duration B.duration) ∧
      rep.similarities.energy =
        max 0 (1 - |A.rms_energy - B.rms_energy| / max A.rms_energy B.rms_energy) ∧
      rep.similarities.spectral_centroid =
        max 0 (1 - |A.spectral_centroid_mean - B.spectral_centroid_mean| /
          max A.spectral_centroid_mean B.spectral_centroid_mean) ∧
      rep.similarities.spectral_rolloff =
        max 0 (1 - |A.spectral_rolloff_mean - B.spectral_rolloff_mean| /
          max A.spectral_rolloff_mean B.spectral_rolloff_mean) ∧
      rep.similarities.tempo =
        max 0 (1 - |A.tempo - B.tempo| / max A.tempo B.tempo)) ∧
    (∀ a b : ℚ, max a b = 0 →
      scalarSimilarity a b = .error .zeroDivisionError) := by
  constructor
  · intro A B rep h
    obtain ⟨sd, se, sc, sr, mv, cv, st, h1, h2, h3, h4, h5, h6, h7, hrep⟩ :=
      enhanced_ok_inv h
    subst hrep
    exact ⟨scalarSim_ok_eq h1, scalarSim_ok_eq h2, scalarSim_ok_eq h3,
      scalarSim_ok_eq h4, scalarSim_ok_eq h7⟩
  · intro a b h
    exact scalarSim_zero h

/-- Claim C1, witness: the amended theorem applied to the concrete pair
(exA, exA) and to the zero pair (0, 0). -/
theorem claim1_witness :
    repAA.similarities.duration =
      max 0 (1 - |exA.duration - exA.duration| / max exA.duration exA.duration) ∧
    scalarSimilarity 0 0 = Except.error PyErr.zeroDivisionError :=
  ⟨(claim1_amended.1 exA exA repAA enhanced_exA_exA).1,
    claim1_amended.2 0 0 (by simp)⟩

/-- Claim C2: the aggregate of every successful report is np.mean of the
list of the nine per-feature similarity values in dictionary order, which
equals the spec's unweighted arithmetic mean of those nine values; the
list has exactly nine entries. -/
theorem claim2_aggregate_mean :
    ∀ A B : Characteristics, ∀ rep : EnhancedResult,
      enhanced_similarity_detection A B = .ok rep →
      rep.overall_similarity = npMean (simValues rep.similarities) ∧
      npMean (simValues rep.similarities) = aggregateSpec rep.similarities ∧
      (simValues rep.similarities).length = 9 := by
  intro A B rep h
  obtain ⟨sd, se, sc, sr, mv, cv, st, h1, h2, h3, h4, h5, h6, h7, hrep⟩ :=
    enhanced_ok_inv h
  subst hrep
  exact ⟨rfl, npMean_simValues _, rfl⟩

/-- Claim C2, witness: the theorem applied to the concrete pair
(exA, exA). -/
theorem claim2_witness :
    repAA.overall_similarity = npMean (simValues repAA.similarities) ∧
    npMean (simValues repAA.similarities) = aggregateSpec repAA.similarities ∧
    (simValues repAA.similarities).length = 9 :=
  claim2_aggregate_mean exA exA repAA enhanced_exA_exA

/-- Claim C3, counterexample: exZ is valid in the spec's sense (positive
duration, tempo and sample rate; nonnegative energy), yet scoring it
against itself raises ZeroDivisionError instead of returning the
all-ones report. -/
theorem claim3_counterexample :
    (0 < exZ.duration ∧ 0 < exZ.tempo ∧ 0 < exZ.sample_rate ∧
      0 ≤ exZ.rms_energy) ∧
    enhanced_similarity_detection exZ exZ = Except.error PyErr.zeroDivisionError :=
  ⟨by norm_num [exZ, exA], enhanced_exZ_exZ⟩

/-- Claim C3, amended: self-comparison yields every per-feature
similarity equal to 1, aggregate 1, and the IDENTICAL interpretation,
provided additionally that the energy, centroid and rolloff scalars are
strictly positive and both coefficient vectors are non-constant. -/
theorem claim3_amended (A : Characteristics)
    (hd : 0 < A.duration) (he : 0 < A.rms_energy)
    (hc : 0 < A.spectral_centroid_mean) (hr : 0 < A.spectral_rolloff_mean)
    (ht : 0 < A.tempo)
    (hm : 0 < varNum A.mfcc_mean) (hch : 0 < varNum A.chroma_mean) :
    enhanced_similarity_detection A A =
      .ok ⟨A, A, ⟨1, 1, 1, 1, .val 1, .val 1, 1, 1, 1⟩, .val 1⟩ ∧
    interpret_similarity 1 = "IDENTICAL - Same audio file" :=
  ⟨score_self hd he hc hr ht hm hch, by norm_num [interpret_similarity]⟩

/-- Claim C3, witness: the amended theorem applied to the concrete
summary exA. -/
theorem claim3_witness :
    enhanced_similarity_detection exA exA = Except.ok repAA ∧
    interpret_similarity 1 = "IDENTICAL - Same audio file" :=
  claim3_amended exA (by norm_num [exA]) (by norm_num [exA])
    (by norm_num [exA]) (by norm_num [exA]) (by norm_num [exA])
    (by norm_num [exA, varNum]) (by norm_num [exA, varNum])

/-- Claim C4: scoring is symmetric — swapping the two summaries yields
the same outcome (the same error, or a report with identical per-feature
similarities and identical aggregate). -/
theorem claim4_symmetry (A B : Characteristics) :
    Except.map (fun r => (r.similarities, r.overall_similarity))
      (enhanced_similarity_detection A B) =
    Except.map (fun r => (r.similarities, r.overall_similarity))
      (enhanced_similarity_detection B A) := by
  unfold enhanced_similarity_detection
  rw [scalarSim_comm A.duration B.duration,
    scalarSim_comm A.rms_energy B.rms_energy,
    scalarSim_comm A.spectral_centroid_mean B.spectral_centroid_mean,
    scalarSim_comm A.spectral_rolloff_mean B.spectral_rolloff_mean,
    corrcoef_comm A.mfcc_mean B.mfcc_mean,
    corrcoef_comm A.chroma_mean B.chroma_mean,
    scalarSim_comm A.tempo B.tempo,
    ratioSim_comm ( Characteristics.harmonic_ratio A) ( Characteristics.harmonic_ratio B),
    ratioSim_comm ( Characteristics.percussive_ratio A) ( Characteristics.percussive_ratio B)]
  cases scalarSimilarity B.duration A.duration with
  | error e => rfl
  | ok sd =>
  cases scalarSimilarity B.rms_energy A.rms_energy with
  | error e => rfl
  | ok se =>
  cases scalarSimilarity B.spectral_centroid_mean A.spectral_centroid_mean with
  | error e => rfl
  | ok sc =>
  cases scalarSimilarity B.spectral_rolloff_mean A.spectral_rolloff_mean with
  | error e => rfl
  | ok sr =>
  cases corrcoef B.mfcc_mean A.mfcc_mean with
  | error e => rfl
  | ok mv =>
  cases corrcoef B.chroma_mean A.chroma_mean with
  | error e => rfl
  | ok cv =>
  cases scalarSimilarity B.tempo A.tempo with
  | error e => rfl
  | ok st => rfl

/-- Claim C5, counterexample: the correlation-based mfcc similarity is
not clamped — for the summaries exP and exQ, whose mfcc vectors are
anti-correlated, the report's mfcc similarity is -1, which is negative
and therefore outside [0, 1]. -/
theorem claim5_counterexample :
    enhanced_similarity_detection exP exQ = Except.ok repPQ ∧
    repPQ.similarities.mfcc = SimValue.val (-1) ∧ ((-1 : ℝ) < 0) :=
  ⟨enhanced_exP_exQ, rfl, by norm_num⟩

/-- Claim C5, amended: for summaries with nonnegative scalar features,
the seven non-correlation per-feature similarities of a successful
report lie in [0, 1]; the correlation-based mfcc and chroma similarities
can be negative. -/
theorem claim5_amended (A B : Characteristics) (rep : EnhancedResult)
    (hd1 : 0 ≤ A.duration) (hd2 : 0 ≤ B.duration)
    (he1 : 0 ≤ A.rms_energy) (he2 : 0 ≤ B.rms_energy)
    (hc1 : 0 ≤ A.spectral_centroid_mean) (hc2 : 0 ≤ B.spectral_centroid_mean)
    (hr1 : 0 ≤ A.spectral_rolloff_mean) (hr2 : 0 ≤ B.spectral_rolloff_mean)
    (ht1 : 0 ≤ A.tempo) (ht2 : 0 ≤ B.tempo)
    (h : enhanced_similarity_detection A B = .ok rep) :
    (0 ≤ rep.similarities.duration ∧ rep.similarities.duration ≤ 1) ∧
    (0 ≤ rep.similarities.energy ∧ rep.similarities.energy ≤ 1) ∧
    (0 ≤ rep.similarities.spectral_centroid ∧ rep.similarities.spectral_centroid ≤ 1) ∧
    (0 ≤ rep.similarities.spectral_rolloff ∧ rep.similarities.spectral_rolloff ≤ 1) ∧
    (0 ≤ rep.similarities.tempo ∧ rep.similarities.tempo ≤ 1) ∧
    (0 ≤ Similarities.harmonic_ratio rep.similarities ∧
      Similarities.harmonic_ratio rep.similarities ≤ 1) ∧
    (0 ≤ Similarities.percussive_ratio rep.similarities ∧
      Similarities.percussive_ratio rep.similarities ≤ 1) := by
  obtain ⟨sd, se, sc, sr, mv, cv, st, h1, h2, h3, h4, h5, h6, h7, hrep⟩ :=
    enhanced_ok_inv h
  subst hrep
  exact ⟨scalarSim_mem hd1 hd2 h1, scalarSim_mem he1 he2 h2,
    scalarSim_mem hc1 hc2 h3, scalarSim_mem hr1 hr2 h4,
    scalarSim_mem ht1 ht2 h7, ratioSim_mem _ _, ratioSim_mem _ _⟩

/-- Claim C5, witness: the amended theorem applied to the concrete pair
(exA, exA). -/
theorem claim5_witness :
    (0 ≤ repAA.similarities.duration ∧ repAA.similarities.duration ≤ 1) ∧
    (0 ≤ repAA.similarities.energy ∧ repAA.similarities.energy ≤ 1) ∧
    (0 ≤ repAA.similarities.spectral_centroid ∧ repAA.similarities.spectral_centroid ≤ 1) ∧
    (0 ≤ repAA.similarities.spectral_rolloff ∧ repAA.similarities.spectral_rolloff ≤ 1) ∧
    (0 ≤ repAA.similarities.tempo ∧ repAA.similarities.tempo ≤ 1) ∧
    (0 ≤ Similarities.harmonic_ratio repAA.similarities ∧
      Similarities.harmonic_ratio repAA.similarities ≤ 1) ∧
    (0 ≤ Similarities.percussive_ratio repAA.similarities ∧
      Similarities.percussive_ratio repAA.similarities ≤ 1) :=
  claim5_amended exA exA repAA (by norm_num [exA]) (by norm_num [exA])
    (by norm_num [exA]) (by norm_num [exA]) (by norm_num [exA])
    (by norm_num [exA]) (by norm_num [exA]) (by norm_num [exA])
    (by norm_num [exA]) (by norm_num [exA]) enhanced_exA_exA

/-- Claim C6, counterexample: no input validation is performed — the two
summaries with negative (hence malformed) tempos are scored without any
error, producing a report whose tempo similarity is 6/5. -/
theorem claim6_counterexample :
    enhanced_similarity_detection exN1 exN2 = Except.ok repN ∧
    repN.similarities.tempo = 6/5 ∧ ¬((6 : ℚ)/5 ≤ 1) :=
  ⟨enhanced_exN1_exN2, rfl, by norm_num⟩

/-- Claim C6, amended: there is no InvalidInputError and no validation.
A vector-length mismatch on the mfcc or chroma field makes the run fail,
but with a generic error (numpy's ValueError, or an earlier
ZeroDivisionError), while summaries with non-positive tempos are scored
successfully, yielding a report instead of any error. -/
theorem claim6_amended :
    (∀ A B : Characteristics, A.mfcc_mean.length ≠ B.mfcc_mean.length →
      isOkB (enhanced_similarity_detection A B) = false) ∧
    (∀ A B : Characteristics, A.chroma_mean.length ≠ B.chroma_mean.length →
      isOkB (enhanced_similarity_detection A B) = false) ∧
    enhanced_similarity_detection exN1 exN2 = Except.ok repN := by
  refine ⟨?_, ?_, enhanced_exN1_exN2⟩
  · intro A B hlen
    cases hE : enhanced_similarity_detection A B with
    | error e => rfl
    | ok rep =>
      obtain ⟨sd, se, sc, sr, mv, cv, st, h1, h2, h3, h4, h5, h6, h7, hrep⟩ :=
        enhanced_ok_inv hE
      rw [corrcoef_mismatch hlen] at h5
      cases h5
  · intro A B hlen
    cases hE : enhanced_similarity_detection A B with
    | error e => rfl
    | ok rep =>
      obtain ⟨sd, se, sc, sr, mv, cv, st, h1, h2, h3, h4, h5, h6, h7, hrep⟩ :=
        enhanced_ok_inv hE
      rw [corrcoef_mismatch hlen] at h6
      cases h6

/-- Claim C6, witness: the amended theorem applied to the concrete
mismatched pair (exA, exM) and, for the no-validation part, read off at
the negative-tempo pair. -/
theorem claim6_witness :
    isOkB (enhanced_similarity_detection exA exM) = false ∧
    enhanced_similarity_detection exN1 exN2 = Except.ok repN :=
  ⟨claim6_amended.1 exA exM (by norm_num [exA, exM]),
    claim6_amended.2.2⟩

/-- Claim C7, counterexample: with the constant chroma vector of exC the
scorer does not raise any error — it returns a report whose chroma
similarity is silently NaN (and whose aggregate is NaN). -/
theorem claim7_counterexample :
    enhanced_similarity_detection exC exC = Except.ok repC ∧
    repC.similarities.chroma = SimValue.nan :=
  ⟨enhanced_exC_exC, rfl⟩

/-- Claim C7, amended: when a correlation-scored vector is constant
(zero variance) in either input and the run succeeds, the corresponding
similarity is NaN and the aggregate is NaN; no error of any kind is
raised for this condition. -/
theorem claim7_amended (A B : Characteristics) (rep : EnhancedResult)
    (h : enhanced_similarity_detection A B = .ok rep) :
    (varNum A.chroma_mean = 0 ∨ varNum B.chroma_mean = 0 →
      rep.similarities.chroma = SimValue.nan ∧
      rep.overall_similarity = SimValue.nan) ∧
    (varNum A.mfcc_mean = 0 ∨ varNum B.mfcc_mean = 0 →
      rep.similarities.mfcc = SimValue.nan ∧
      rep.overall_similarity = SimValue.nan) := by
  obtain ⟨sd, se, sc, sr, mv, cv, st, h1, h2, h3, h4, h5, h6, h7, hrep⟩ :=
    enhanced_ok_inv h
  subst hrep
  constructor
  · intro hz
    have hcv : cv = .nan := corrcoef_ok_varzero h6 hz
    subst hcv
    exact ⟨rfl, by simp [npMean_simValues, aggregateSpec]⟩
  · intro hz
    have hmv : mv = .nan := corrcoef_ok_varzero h5 hz
    subst hmv
    constructor
    · rfl
    · cases cv <;> simp [npMean_simValues, aggregateSpec]

/-- Claim C7, witness: the amended theorem applied to the concrete
constant-chroma pair (exC, exC). -/
theorem claim7_witness :
    repC.similarities.chroma = SimValue.nan ∧
    repC.overall_similarity = SimValue.nan :=
  (claim7_amended exC exC repC enhanced_exC_exC).1
    (Or.inl (by norm_num [exC, exA, varNum]))

/-- Claim C9, counterexample: the two call sites disagree — at an
aggregate of 0.96 the interpret_similarity table answers the IDENTICAL
tier while the inline table of main_enhanced_analysis answers
VERY SIMILAR, so the code does not use a single canonical table. -/
theorem claim9_counterexample :
    interpret_similarity 0.96 = "IDENTICAL - Same audio file" ∧
    main_enhanced_interpretation 0.96 = "VERY SIMILAR" ∧
    "VERY SIMILAR" ≠ "IDENTICAL - Same audio file" := by
  refine ⟨?_, ?_, by decide⟩
  · norm_num [interpret_similarity]
  · norm_num [main_enhanced_interpretation]

/-- Claim C9, amended: interpret_similarity follows exactly the §4.1
threshold table (with descriptive suffixes on the labels), but the
inline classification in main_enhanced_analysis uses a different table
with no 0.95 tier, classifying every score ≥ 0.8 — including scores
≥ 0.95 — as VERY SIMILAR; so the same table is not used at every call
site. -/
theorem claim9_amended :
    (∀ x : ℚ, 0.95 ≤ x →
      interpret_similarity x = "IDENTICAL - Same audio file") ∧
    (∀ x : ℚ, 0.8 ≤ x → x < 0.95 →
      interpret_similarity x = "VERY SIMILAR - Likely same content with minor differences") ∧
    (∀ x : ℚ, 0.6 ≤ x → x < 0.8 →
      interpret_similarity x = "SIMILAR - Related audio content") ∧
    (∀ x : ℚ, 0.4 ≤ x → x < 0.6 →
      interpret_similarity x = "SOMEWHAT SIMILAR - Some common characteristics") ∧
    (∀ x : ℚ, 0.2 ≤ x → x < 0.4 →
      interpret_similarity x = "SLIGHTLY SIMILAR - Minimal common features") ∧
    (∀ x : ℚ, x < 0.2 →
      interpret_similarity x = "DIFFERENT - Unrelated audio content") ∧
    (∀ x : ℚ, 0.95 ≤ x →
      main_enhanced_interpretation x = "VERY SIMILAR") := by
  refine ⟨?_, ?_, ?_, ?_, ?_, ?_, ?_⟩ <;> intro x <;>
    simp only [interpret_similarity, main_enhanced_interpretation] <;>
    intros <;> split_ifs <;> first | rfl | linarith

/-- Claim C9, witness: the amended theorem applied at the concrete
scores 0.97, 0.85, 0.7, 0.5, 0.3 and 0.1. -/
theorem claim9_witness :
    interpret_similarity 0.97 = "IDENTICAL - Same audio file" ∧
    interpret_similarity 0.85 = "VERY SIMILAR - Likely same content with minor differences" ∧
    interpret_similarity 0.7 = "SIMILAR - Related audio content" ∧
    interpret_similarity 0.5 = "SOMEWHAT SIMILAR - Some common characteristics" ∧
    interpret_similarity 0.3 = "SLIGHTLY SIMILAR - Minimal common features" ∧
    interpret_similarity 0.1 = "DIFFERENT - Unrelated audio content" ∧
    main_enhanced_interpretation 0.97 = "VERY SIMILAR" :=
  ⟨claim9_amended.1 0.97 (by norm_num),
    claim9_amended.2.1 0.85 (by norm_num) (by norm_num),
    claim9_amended.2.2.1 0.7 (by norm_num) (by norm_num),
    claim9_amended.2.2.2.1 0.5 (by norm_num) (by norm_num),
    claim9_amended.2.2.2.2.1 0.3 (by norm_num) (by norm_num),
    claim9_amended.2.2.2.2.2.1 0.1 (by norm_num),
    claim9_amended.2.2.2.2.2.2 0.97 (by norm_num)⟩

/-- Evaluation of labelRank at each of the six labels. -/
lemma labelRank_eval_identical :
    labelRank "IDENTICAL - Same audio file" = 5 := rfl

/-- See labelRank_eval_identical. -/
lemma labelRank_eval_very :
    labelRank "VERY SIMILAR - Likely same content with minor differences" = 4 := rfl

/-- See labelRank_eval_identical. -/
lemma labelRank_eval_similar :
    labelRank "SIMILAR - Related audio content" = 3 := rfl

/-- See labelRank_eval_identical. -/
lemma labelRank_eval_somewhat :
    labelRank "SOMEWHAT SIMILAR - Some common characteristics" = 2 := rfl

/-- See labelRank_eval_identical. -/
lemma labelRank_eval_slightly :
    labelRank "SLIGHTLY SIMILAR - Minimal common features" = 1 := rfl

/-- See labelRank_eval_identical. -/
lemma labelRank_eval_different :
    labelRank "DIFFERENT - Unrelated audio content" = 0 := rfl

/-- Claim C10: interpret_similarity is total (it is a Lean function on
all of ℚ) and monotone — a larger score never gets a strictly lower
similarity tier — and needs no clamping: every score ≥ 0.95, including
scores above 1, yields the IDENTICAL label, and every score below 0.2,
including negative scores, yields the DIFFERENT label. -/
theorem claim10_monotone :
    (∀ x y : ℚ, x ≤ y →
      labelRank (interpret_similarity x) ≤ labelRank (interpret_similarity y)) ∧
    (∀ x : ℚ, 0.95 ≤ x →
      interpret_similarity x = "IDENTICAL - Same audio file") ∧
    (∀ x : ℚ, x < 0.2 →
      interpret_similarity x = "DIFFERENT - Unrelated audio content") := by
  refine ⟨?_, ?_, ?_⟩
  · intro x y hxy
    simp only [interpret_similarity]
    split_ifs <;>
      simp only [labelRank_eval_identical, labelRank_eval_very,
        labelRank_eval_similar, labelRank_eval_somewhat,
        labelRank_eval_slightly, labelRank_eval_different] <;>
      first | omega | linarith
  · intro x hx
    simp only [interpret_similarity]
    split_ifs <;> first | rfl | linarith
  · intro x hx
    simp only [interpret_similarity]
    split_ifs <;> first | rfl | linarith

/-- Claim C10, witness: the theorem applied to the out-of-range scores
-1 and 2. -/
theorem claim10_witness :
    labelRank (interpret_similarity (-1)) ≤ labelRank (interpret_similarity 2) ∧
    interpret_similarity 2 = "IDENTICAL - Same audio file" ∧
    interpret_similarity (-1) = "DIFFERENT - Unrelated audio content" :=
  ⟨claim10_monotone.1 (-1) 2 (by norm_num),
    claim10_monotone.2.1 2 (by norm_num),
    claim10_monotone.2.2 (-1) (by norm_num)⟩

/-- A candidate matching block (i, j, k) of two strings: k characters of
the first starting at index i coincide with the k characters of the
second starting at index j. -/
def subMatch (a b : List Char) (t : ℕ × ℕ × ℕ) : Bool :=
  decide (t.1 + t.2.2 ≤ a.length) && decide (t.2.1 + t.2.2 ≤ b.length) &&
    decide ((a.drop t.1).take t.2.2 = (b.drop t.2.1).take t.2.2)

/-- difflib's preference order on matching blocks: a longer block wins;
among blocks of equal size the one starting earliest in the first string
wins, and among those the one starting earliest in the second. -/
def betterB (c d : ℕ × ℕ × ℕ) : Bool :=
  decide (d.2.2 < c.2.2) || (decide (c.2.2 = d.2.2) &&
    (decide (c.1 < d.1) || (decide (c.1 = d.1) && decide (c.2.1 < d.2.1))))

/-- Every triple (i, j, k) with i ≤ |a|, j ≤ |b|, k ≤ |a| — a finite
superset of all matching blocks of the two strings. -/
def candTriples (a b : List Char) : List (ℕ × ℕ × ℕ) :=
  (List.range (a.length + 1)).flatMap (fun i =>
    (List.range (b.length + 1)).flatMap (fun j =>
      (List.range (a.length + 1)).map (fun k => (i, j, k))))

/-- One selection step: replace the best block seen so far when the
candidate is a matching block preferred by difflib's order. -/
def stepBest (a b : List Char) (acc c : ℕ × ℕ × ℕ) : ℕ × ℕ × ℕ :=
  if subMatch a b c && betterB c acc then c else acc

/-- Embedding of SequenceMatcher.find_longest_match (Python's difflib,
used by calculate_fingerprint_similarity) over the whole of both
strings: the longest matching block, ties broken towards the earliest
start in the first string and then in the second; (0, 0, 0) when no
nonempty block matches.  The junk machinery is not modelled: the code
passes isjunk=None, and the autojunk popularity heuristic only engages
for second strings of 200 characters or more. -/
def findLongestMatch (a b : List Char) : ℕ × ℕ × ℕ :=
  (candTriples a b).foldl (stepBest a b) (0, 0, 0)

/-- Unfolding of subMatch in terms of the triple's projections. -/
lemma subMatch_eq {a b : List Char} {t : ℕ × ℕ × ℕ} :
    subMatch a b t = true ↔
      t.1 + t.2.2 ≤ a.length ∧ t.2.1 + t.2.2 ≤ b.length ∧
        (a.drop t.1).take t.2.2 = (b.drop t.2.1).take t.2.2 := by
  simp [subMatch, and_assoc]

/-- Unfolding of subMatch on a triple. -/
lemma subMatch_triple {a b : List Char} {i j k : ℕ} :
    subMatch a b (i, j, k) = true ↔
      i + k ≤ a.length ∧ j + k ≤ b.length ∧
        (a.drop i).take k = (b.drop j).take k := by
  simp [subMatch, and_assoc]

/-- The empty block at the origin always matches. -/
lemma subMatch_zero (a b : List Char) : subMatch a b (0, 0, 0) = true := by
  simp [subMatch]

/-- A preferred block is at least as long. -/
lemma betterB_le {c d : ℕ × ℕ × ℕ} (h : betterB c d = true) :
    d.2.2 ≤ c.2.2 := by
  simp only [betterB, Bool.or_eq_true, Bool.and_eq_true, decide_eq_true_eq] at h
  omega

/-- A block that is not preferred over another is no longer than it. -/
lemma betterB_false_le {c d : ℕ × ℕ × ℕ} (h : betterB c d = false) :
    c.2.2 ≤ d.2.2 := by
  simp only [betterB, Bool.or_eq_false_iff, Bool.and_eq_false_iff,
    decide_eq_false_iff_not] at h
  omega

/-- Folding the selection step over any candidate list preserves being a
matching block. -/
lemma foldl_stepBest_isMatch (a b : List Char) :
    ∀ (l : List (ℕ × ℕ × ℕ)) (init : ℕ × ℕ × ℕ),
      subMatch a b init = true →
      subMatch a b (l.foldl (stepBest a b) init) = true := by
  intro l
  induction l with
  | nil => intro init h; exact h
  | cons c l ih =>
    intro init h
    simp only [List.foldl_cons]
    apply ih
    unfold stepBest
    split_ifs with hc
    · exact ((Bool.and_eq_true _ _).mp hc).1
    · exact h

/-- Folding the selection step never shrinks the block size. -/
lemma foldl_stepBest_k_mono (a b : List Char) :
    ∀ (l : List (ℕ × ℕ × ℕ)) (init : ℕ × ℕ × ℕ),
      init.2.2 ≤ (l.foldl (stepBest a b) init).2.2 := by
  intro l
  induction l with
  | nil => intro init; exact le_rfl
  | cons c l ih =>
    intro init
    simp only [List.foldl_cons]
    refine le_trans ?_ (ih (stepBest a b init c))
    unfold stepBest
    split_ifs with hc
    · exact betterB_le ((Bool.and_eq_true _ _).mp hc).2
    · exact le_rfl

/-- The selected block is at least as long as every matching block in
the candidate list. -/
lemma foldl_stepBest_ge (a b : List Char) :
    ∀ (l : List (ℕ × ℕ × ℕ)) (init c : ℕ × ℕ × ℕ), c ∈ l →
      subMatch a b c = true →
      c.2.2 ≤ (l.foldl (stepBest a b) init).2.2 := by
  intro l
  induction l with
  | nil => intro init c hc _; exact absurd hc (List.not_mem_nil c)
  | cons d l ih =>
    intro init c hmem hmatch
    simp only [List.foldl_cons]
    rcases List.mem_cons.mp hmem with rfl | hmem'
    · by_cases hc : (subMatch a b c && betterB c init) = true
      · have hstep : stepBest a b init c = c := by
          unfold stepBest; rw [if_pos hc]
        rw [hstep]
        exact foldl_stepBest_k_mono a b l c
      · have hstep : stepBest a b init c = init := by
          unfold stepBest; rw [if_neg hc]
        rw [hstep]
        have hb : betterB c init = false := by
          cases hbb : betterB c init
          · rfl
          · exact absurd (by simp [hmatch, hbb]) hc
        exact le_trans (betterB_false_le hb) (foldl_stepBest_k_mono a b l init)
    · exact ih (stepBest a b init d) c hmem' hmatch

/-- The selected longest match is itself a matching block. -/
lemma findLongestMatch_isMatch (a b : List Char) :
    subMatch a b (findLongestMatch a b) = true :=
  foldl_stepBest_isMatch a b _ _ (subMatch_zero a b)

/-- Membership in the candidate enumeration. -/
lemma mem_candTriples {a b : List Char} {i j k : ℕ}
    (hi : i ≤ a.length) (hj : j ≤ b.length) (hk : k ≤ a.length) :
    (i, j, k) ∈ candTriples a b := by
  unfold candTriples
  simp only [List.mem_flatMap, List.mem_range, List.mem_map]
  exact ⟨i, by omega, j, by omega, k, by omega, rfl⟩

/-- The selected longest match is at least as long as any matching
block. -/
lemma findLongestMatch_ge {a b : List Char} {i j k : ℕ}
    (h : subMatch a b (i, j, k) = true) :
    k ≤ (findLongestMatch a b).2.2 := by
  obtain ⟨h1, h2, _⟩ := subMatch_triple.mp h
  exact foldl_stepBest_ge a b _ (0, 0, 0) (i, j, k)
    (mem_candTriples (by omega) (by omega) (by omega)) h

/-- The two strings left of a nonempty longest match are jointly
shorter than the inputs. -/
lemma flm_left_dec {a b : List Char}
    (hk : ¬(findLongestMatch a b).2.2 = 0) :
    (a.take (findLongestMatch a b).1).length +
      (b.take (findLongestMatch a b).2.1).length < a.length + b.length := by
  obtain ⟨h1, h2, _⟩ := subMatch_eq.mp (findLongestMatch_isMatch a b)
  have ht1 : (a.take (findLongestMatch a b).1).length ≤ (findLongestMatch a b).1 :=
    List.length_take_le _ _
  have ht2 : (b.take (findLongestMatch a b).2.1).length ≤ (findLongestMatch a b).2.1 :=
    List.length_take_le _ _
  omega

/-- The two strings right of a nonempty longest match are jointly
shorter than the inputs. -/
lemma flm_right_dec {a b : List Char}
    (hk : ¬(findLongestMatch a b).2.2 = 0) :
    (a.drop ((findLongestMatch a b).1 + (findLongestMatch a b).2.2)).length +
      (b.drop ((findLongestMatch a b).2.1 + (findLongestMatch a b).2.2)).length <
      a.length + b.length := by
  obtain ⟨h1, h2, _⟩ := subMatch_eq.mp (findLongestMatch_isMatch a b)
  rw [List.length_drop, List.length_drop]
  omega

/-- Embedding of SequenceMatcher.get_matching_blocks' total matched
size M: the size of the longest matching block plus the matched sizes of
the two flanking substring pairs, recursively; 0 when nothing matches. -/
def matchTotal (a b : List Char) : ℕ :=
  if hk : (findLongestMatch a b).2.2 = 0 then 0
  else
    matchTotal (a.take (findLongestMatch a b).1)
        (b.take (findLongestMatch a b).2.1) +
      (findLongestMatch a b).2.2 +
      matchTotal (a.drop ((findLongestMatch a b).1 + (findLongestMatch a b).2.2))
        (b.drop ((findLongestMatch a b).2.1 + (findLongestMatch a b).2.2))
termination_by a.length + b.length
decreasing_by
  all_goals
    first
    | exact flm_left_dec hk
    | exact flm_right_dec hk

/-- When the longest match is empty the total matched size is 0. -/
lemma matchTotal_k_zero {a b : List Char}
    (h : (findLongestMatch a b).2.2 = 0) : matchTotal a b = 0 := by
  unfold matchTotal
  rw [dif_pos h]

/-- Nothing matches against the empty first string. -/
lemma matchTotal_nil_left (b : List Char) : matchTotal [] b = 0 := by
  apply matchTotal_k_zero
  obtain ⟨h1, _, _⟩ := subMatch_eq.mp (findLongestMatch_isMatch [] b)
  simp only [List.length_nil] at h1
  omega

/-- Nothing matches against the empty second string. -/
lemma matchTotal_nil_right (a : List Char) : matchTotal a [] = 0 := by
  apply matchTotal_k_zero
  obtain ⟨_, h2, _⟩ := subMatch_eq.mp (findLongestMatch_isMatch a [])
  simp only [List.length_nil] at h2
  omega

/-- A string matched against itself matches in full. -/
lemma matchTotal_self (a : List Char) : matchTotal a a = a.length := by
  rcases eq_or_ne a [] with rfl | hne
  · simp [matchTotal_nil_left]
  · have hmem : subMatch a a (0, 0, a.length) = true := by
      simp [subMatch]
    have hge := findLongestMatch_ge hmem
    obtain ⟨h1, h2, _⟩ := subMatch_eq.mp (findLongestMatch_isMatch a a)
    have hk : (findLongestMatch a a).2.2 = a.length := by omega
    have hi : (findLongestMatch a a).1 = 0 := by omega
    have hj : (findLongestMatch a a).2.1 = 0 := by omega
    have hlen : a.length ≠ 0 := fun h => hne (List.length_eq_zero.mp h)
    rw [matchTotal, hi, hj, hk, dif_neg hlen]
    simp [List.drop_length, matchTotal_nil_left]

/-- A nonempty matching block exhibits a common character. -/
lemma exists_common_of_match {a b : List Char} {i j k : ℕ}
    (h : subMatch a b (i, j, k) = true) (hk : k ≠ 0) :
    ∃ ch, ch ∈ a ∧ ch ∈ b := by
  obtain ⟨h1, h2, h3⟩ := subMatch_triple.mp h
  have h0 : ((a.drop i).take k)[0]? = ((b.drop j).take k)[0]? := by rw [h3]
  rw [List.getElem?_take, List.getElem?_take, if_pos (by omega),
    if_pos (by omega), List.getElem?_drop, List.getElem?_drop] at h0
  have hia : i + 0 < a.length := by omega
  have hjb : j + 0 < b.length := by omega
  rw [List.getElem?_eq_getElem hia, List.getElem?_eq_getElem hjb] at h0
  refine ⟨a[i + 0], List.getElem_mem hia, ?_⟩
  rw [Option.some.inj h0]
  exact List.getElem_mem hjb

/-- Strings with no common character have total matched size 0. -/
lemma matchTotal_no_common {a b : List Char} (hne : ∀ ch ∈ a, ch ∉ b) :
    matchTotal a b = 0 := by
  apply matchTotal_k_zero
  by_contra hk
  obtain ⟨ch, hca, hcb⟩ :=
    exists_common_of_match (findLongestMatch_isMatch a b) hk
  exact hne ch hca hcb

/-- Embedding of calculate_fingerprint_similarity
(audio_similarity_detector.py, lines 10-17):
SequenceMatcher(None, f1, f2).ratio(), i.e. 2*M / T where M is the total
size of the matching blocks and T the sum of the two lengths, with the
ratio defined as 1.0 when T = 0 (difflib's _calculate_ratio). -/
def calculate_fingerprint_similarity (fingerprint1 fingerprint2 : List Char) : ℚ :=
  if fingerprint1.length + fingerprint2.length = 0 then 1
  else 2 * (matchTotal fingerprint1 fingerprint2 : ℚ) /
    ((fingerprint1.length : ℚ) + (fingerprint2.length : ℚ))

/-- Claim C8: the fingerprint similarity is 1 on two empty strings, 0
when exactly one string is empty, 1 on two equal nonempty strings, and 0
on two strings sharing no common character. -/
theorem claim8_string_similarity :
    calculate_fingerprint_similarity [] [] = 1 ∧
    (∀ a b : List Char, (a = [] ∨ b = []) → a.length + b.length ≠ 0 →
      calculate_fingerprint_similarity a b = 0) ∧
    (∀ a : List Char, a ≠ [] → calculate_fingerprint_similarity a a = 1) ∧
    (∀ a b : List Char, a.length + b.length ≠ 0 → (∀ ch ∈ a, ch ∉ b) →
      calculate_fingerprint_similarity a b = 0) := by
  refine ⟨rfl, ?_, ?_, ?_⟩
  · intro a b hab hT
    unfold calculate_fingerprint_similarity
    rw [if_neg hT]
    rcases hab with rfl | rfl
    · rw [matchTotal_nil_left]; norm_num
    · rw [matchTotal_nil_right]; norm_num
  · intro a ha
    unfold calculate_fingerprint_similarity
    have hlen : a.length ≠ 0 := fun h => ha (List.length_eq_zero.mp h)
    rw [if_neg (by omega), matchTotal_self]
    have hq : (a.length : ℚ) ≠ 0 := by exact_mod_cast hlen
    field_simp
    ring
  · intro a b hT hne
    unfold calculate_fingerprint_similarity
    rw [if_neg hT, matchTotal_no_common hne]
    norm_num

/-- Claim C8, witness: the theorem applied to the concrete strings
"abcde" vs "abcde" and "abc" vs "xyz". -/
theorem claim8_witness :
    calculate_fingerprint_similarity
      ['a', 'b', 'c', 'd', 'e'] ['a', 'b', 'c', 'd', 'e'] = 1 ∧
    calculate_fingerprint_similarity ['a', 'b', 'c'] ['x', 'y', 'z'] = 0 :=
  ⟨claim8_string_similarity.2.2.1 ['a', 'b', 'c', 'd', 'e'] (by decide),
    claim8_string_similarity.2.2.2 ['a', 'b', 'c'] ['x', 'y', 'z']
      (by decide) (by decide)⟩

end AudioFP
